import Mathlib

/-!
Verification of the configuration subsystem of `deepmind/digraph_transformer`
(`config.py`): the dataset registry, the default configuration, and the
`get_config` builder that applies presets, resolves the dataset record and
derives step counts and batch-size-scaled learning rates.

Modelling conventions:
* Python machine floats are modelled as exact rationals (`ℚ`).  Every float
  literal appearing in the source (`3.5`, `1e-4 / 32`, `0.2`, ...) is exactly
  representable, and the source performs only multiplications and divisions on
  them, so the rational model tracks the float computation faithfully at the
  concrete values the claims are about.
* Because `Rat.mul` / `Rat.div` are `@[irreducible]` in this toolchain, the
  embedding computes with `ratMul` / `ratDiv`, wrappers built on the reducible
  `Rat.divInt`; `ratMul_eq` / `ratDiv_eq` prove them equal to `*` and `/`.
* Python's truncating conversion `int(...)` is `pyInt` (truncation toward
  zero).
* Python `dict` lookup (`datasets[name]`) is modelled as an association-list
  lookup returning `Option`, and the builder returns `Except String Config`,
  whose `.error` case models the `KeyError` raised on an unregistered dataset
  name, and the `ZeroDivisionError` raised by `... / effective_batch_size`
  when the (possibly preset-overridden) batch size is zero.
* The external `presets.apply_presets` collaborator (a module that is not part
  of the sources under verification) is an explicit function parameter
  `apply_presets : Config → List String → Config` of `get_config`.
-/

namespace DigraphConfig

/-- Multiplication on `ℚ` computed via the reducible `Rat.divInt`
(kernel-evaluable, unlike the `@[irreducible]` `Rat.mul`). -/
def ratMul (a b : ℚ) : ℚ := Rat.divInt (a.num * b.num) ((a.den : Int) * (b.den : Int))

/-- Division on `ℚ` computed via the reducible `Rat.divInt`. -/
def ratDiv (a b : ℚ) : ℚ := Rat.divInt (a.num * (b.den : Int)) ((a.den : Int) * b.num)

/-- Python's `int(...)` applied to a (float modelled as) rational: truncation
toward zero. -/
def pyInt (q : ℚ) : Int :=
  if 0 ≤ q.num then Int.ofNat (q.num.toNat / q.den)
  else - Int.ofNat ((- q.num).toNat / q.den)

/-- `config.py`, class `Dataset`: all dataset-specific constants. -/
structure Dataset where
  name : String
  path : String
  sequence_length : Int
  num_classes : Int
  ast_depth : Int
  num_nodetypes : Int
  num_nodeattributes : Int
  edge_df_types : Option Int
  edge_ast_types : Option Int
  num_train_samples : Int
  idx2vocab : Option (List (Int × String))
  vocab2idx : Option (List (String × Int))
deriving DecidableEq

/-- Standard OGB Code2 dataset. -/
def OGBG_CODE2 : Dataset :=
  ⟨"ogbg-code2", "ogbg-code2", 5, 5002, 20, 98, 10030, none, none, 407976,
    none, none⟩

/-- Standard OGB Code2 dataset with edges only in one direction. -/
def OGBG_CODE2_NOREV : Dataset :=
  ⟨"ogbg-code2-norev", "ogbg-code2-norev", 5, 5002, 20, 98, 10030, none, none,
    407976, none, none⟩

/-- Data-Flow centric OGB Code2 dataset. -/
def OGBG_CODE2_NOREV_DF : Dataset :=
  ⟨"ogbg-code2-norev-df", "ogbg-code2-norev-df", 5, 5002, 20, 113, 11973,
    some 12, some 51, 407976, none, none⟩

/-- Sorting network dataset. -/
def SORTING_NETWORKS : Dataset :=
  ⟨"sn", "7to11_12_13to16", 1, 2, -1, -1, 13, none, none, 800000, none, none⟩

/-- The dataset registry (`datasets` dict in `config.py`), as an association
list preserving insertion order. -/
def datasets : List (String × Dataset) :=
  [("ogbg-code2", OGBG_CODE2),
   ("ogbg-code2-norev", OGBG_CODE2_NOREV),
   ("ogbg-code2-norev-df", OGBG_CODE2_NOREV_DF),
   ("sn-7to11-12-13to16", SORTING_NETWORKS)]

/-- Learning-rate schedule sub-record (`optimizer.lr_schedule`). -/
structure LrSchedule where
  warmup_steps : Int
  decay_steps : Int
  init_value : ℚ
  peak_value : ℚ
  end_value : ℚ
deriving DecidableEq

/-- Optimizer kwargs sub-record (`optimizer.optimizer_kwargs`). -/
structure OptimizerKwargs where
  b1 : ℚ
  b2 : ℚ
  weight_decay : ℚ
deriving DecidableEq

/-- Adaptive-gradient-clipping kwargs (`optimizer.agc_kwargs`). -/
structure AgcKwargs where
  clipping : ℚ
deriving DecidableEq

/-- Optimizer sub-record of the experiment config. -/
structure Optimizer where
  name : String
  optimizer_kwargs : OptimizerKwargs
  lr_schedule : LrSchedule
  use_agc : Bool
  agc_kwargs : AgcKwargs
deriving DecidableEq

/-- Loss kwargs of the model config. -/
structure LossKwargs where
  only_punish_first_end_of_sequence_token : Bool
deriving DecidableEq

/-- Positional-encoding sub-record of the model config. -/
structure PosencConfig where
  posenc_type : String
  exclude_canonical : Bool
  relative_positional_encodings : Bool
  do_also_reverse : Bool
  ppr_restart_probaility : ℚ
  random_walk_steps : Int
  top_k_eigenvectors : Int
  excl_k_eigenvectors : Int
  concatenate_eigenvalues : Bool
  maglap_q : ℚ
  maglap_q_absolute : Bool
  maglap_symmetric_norm : Bool
  maglap_transformer : Bool
  maglap_use_signnet : Bool
  maglap_use_gnn : Bool
  maglap_norm_comps_sep : Bool
  maglap_l2_norm : Bool
  maglap_dropout_p : ℚ
  maglap_sign_rotate : Bool
deriving DecidableEq

/-- Dataset-selection flags (`dataset_config`). -/
structure DatasetConfig where
  do_bucket_by_size : Bool
  exclude_control_flow_edges : Bool
  exclude_next_syntax_edges : Bool
deriving DecidableEq

/-- GNN sub-record of the model config. -/
structure GnnConfig where
  gnn_type : String
  k_hop : Int
  mlp_layers : Int
  se : String
  tightening_factor : Int
  use_edge_attr : Bool
  bidirectional : Bool
  residual : Bool
  concat : Bool
deriving DecidableEq

/-- Attention sub-record of the model config. -/
structure AttentionConfig where
  num_heads : Int
  dense_widening_factor : Int
  with_bias : Bool
  dropout_p : ℚ
  with_attn_dropout : Bool
  re_im_separate_projection : Bool
  with_posenc_residual : Bool
deriving DecidableEq

/-- Encoder sub-record of the model config. -/
structure EncoderConfig where
  attribute_dropout : ℚ
deriving DecidableEq

/-- Model sub-record of the experiment config. -/
structure ModelConfig where
  model_type : String
  num_layers : Int
  d_model : Int
  global_readout : String
  activation : String
  batch_norm : Bool
  deg_sensitive_residual : Bool
  attention_config : AttentionConfig
  encoder_config : EncoderConfig
  loss_kwargs : LossKwargs
  posenc_config : PosencConfig
  with_pre_gnn : Bool
  gnn_config : GnnConfig
deriving DecidableEq

/-- Evaluation sub-record of the experiment config. -/
structure EvaluationConfig where
  eval_also_on_test : Bool
  batch_size : Int
  max_number_of_instances : Int
  unk_offset : ℚ
  eos_offset : ℚ
deriving DecidableEq

/-- Training sub-record of the experiment config. -/
structure TrainingConfig where
  batch_size : Int
deriving DecidableEq

/-- The `experiment_kwargs.config` sub-record.  `data_root` is a
`config_dict.placeholder(str)` (unset: `none`); `dataset` is absent until
`get_config` assigns the resolved dataset record, hence `Option`. -/
structure ExperimentConfig where
  data_root : Option String
  debug : Bool
  dataset_name : String
  pmap_axis : String
  optimizer : Optimizer
  model : ModelConfig
  dataset_config : DatasetConfig
  training : TrainingConfig
  evaluation : EvaluationConfig
  dataset : Option Dataset
deriving DecidableEq

/-- Wrapper mirroring `config.experiment_kwargs` (whose single key is
`config`). -/
structure ExperimentKwargs where
  config : ExperimentConfig
deriving DecidableEq

/-- The top-level jaxline config record, restricted to the fields that
`config.py` reads or writes.  `restore_path` is a placeholder field the
builder sets to unset (`none`). -/
structure Config where
  warmup_epochs : Int
  epochs : Int
  training_steps : Int
  log_train_data_interval : Int
  log_tensors_interval : Int
  save_checkpoint_interval : Int
  save_initial_train_checkpoint : Bool
  checkpoint_dir : String
  eval_specific_checkpoint_dir : String
  best_model_eval_metric : String
  best_model_eval_metric_higher_is_better : Bool
  experiment_kwargs : ExperimentKwargs
  restore_path : Option String
deriving DecidableEq

/-- `get_default_config()` of `config.py`: the static default configuration.
Numeric float literals are carried as exact rationals (`1e-4 / 32` is
`ratDiv (ratDiv 1 10000) 32`, and the zero/`0.2`/... literals are exact). -/
def get_default_config : Config :=
  let training_batch_size : Int := 48
  let train_devices : Int := 8
  let eval_batch_size : Int := 48
  let warmup_epochs : Int := 2
  let epochs : Int := 32
  let steps_per_epoch : Int :=
    pyInt (ratDiv (ratDiv 405000 ((training_batch_size : Int) : ℚ))
      ((train_devices : Int) : ℚ))
  let training_steps : Int := epochs * steps_per_epoch
  { warmup_epochs := warmup_epochs
    epochs := epochs
    training_steps := training_steps
    log_train_data_interval := 60
    log_tensors_interval := 60
    save_checkpoint_interval := 300
    save_initial_train_checkpoint := false
    checkpoint_dir := "/tmp/checkpoint/digraph_transformer"
    eval_specific_checkpoint_dir := ""
    best_model_eval_metric := "F1"
    best_model_eval_metric_higher_is_better := true
    experiment_kwargs :=
      { config :=
        { data_root := none
          debug := false
          dataset_name := "ogbg-code2"
          pmap_axis := "i"
          optimizer :=
            { name := "adamw"
              optimizer_kwargs :=
                { b1 := Rat.divInt 9 10
                  b2 := Rat.divInt 999 1000
                  weight_decay := Rat.divInt 1 1000000 }
              lr_schedule :=
                { warmup_steps := warmup_epochs
                  decay_steps := training_steps
                  init_value := 0
                  peak_value := ratDiv (Rat.divInt 1 10000) 32
                  end_value := 0 }
              use_agc := false
              agc_kwargs := { clipping := Rat.divInt 1 10 } }
          model :=
            { model_type := "sat"
              num_layers := 4
              d_model := 256
              global_readout := "mean"
              activation := "relu"
              batch_norm := false
              deg_sensitive_residual := true
              attention_config :=
                { num_heads := 4
                  dense_widening_factor := 4
                  with_bias := false
                  dropout_p := Rat.divInt 1 5
                  with_attn_dropout := true
                  re_im_separate_projection := false
                  with_posenc_residual := false }
              encoder_config := { attribute_dropout := 0 }
              loss_kwargs := { only_punish_first_end_of_sequence_token := false }
              posenc_config :=
                { posenc_type := ""
                  exclude_canonical := false
                  relative_positional_encodings := true
                  do_also_reverse := true
                  ppr_restart_probaility := Rat.divInt 1 5
                  random_walk_steps := 3
                  top_k_eigenvectors := 10
                  excl_k_eigenvectors := 1
                  concatenate_eigenvalues := false
                  maglap_q := Rat.divInt 1 4
                  maglap_q_absolute := true
                  maglap_symmetric_norm := false
                  maglap_transformer := false
                  maglap_use_signnet := true
                  maglap_use_gnn := false
                  maglap_norm_comps_sep := false
                  maglap_l2_norm := true
                  maglap_dropout_p := 0
                  maglap_sign_rotate := true }
              with_pre_gnn := false
              gnn_config :=
                { gnn_type := "gcn"
                  k_hop := 2
                  mlp_layers := 2
                  se := "gnn"
                  tightening_factor := 1
                  use_edge_attr := true
                  bidirectional := false
                  residual := false
                  concat := true } }
          dataset_config :=
            { do_bucket_by_size := false
              exclude_control_flow_edges := true
              exclude_next_syntax_edges := true }
          training := { batch_size := training_batch_size }
          evaluation :=
            { eval_also_on_test := true
              batch_size := eval_batch_size
              max_number_of_instances := -1
              unk_offset := 0
              eos_offset := 0 }
          dataset := none } }
    restore_path := none }

/-- Python's `preset.split(',')`: split a string at every comma.  Implemented
structurally over the character list (the library `String.splitOn` is defined
by well-founded recursion and does not evaluate in the kernel). -/
def splitComma (s : String) : List String :=
  (s.data.foldr
    (fun c parts =>
      match parts with
      | [] => [[c]]
      | cur :: rest => if c = ',' then [] :: cur :: rest else (c :: cur) :: rest)
    [[]]).map String.mk

/-- Python's `list(collections.OrderedDict.fromkeys(l))`: insert each key in
order, keeping only its first occurrence. -/
def orderedDictFromKeys (l : List String) : List String :=
  l.foldl (fun acc x => if x ∈ acc then acc else acc ++ [x]) []

/-- The deduplicated preset list `get_config` builds from a non-empty preset
string (`config.py` line 91). -/
def uniquePresets (preset : String) : List String :=
  orderedDictFromKeys (splitComma preset)

/-- Modelled from the spec: "deduplicate entries by first occurrence while
preserving order", written as the direct first-occurrence recursion (keep the
head, drop its later duplicates, recurse).  Used as the specification-side
counterpart of `orderedDictFromKeys`. -/
def dedupFirstOccurrence : List String → List String
  | [] => []
  | x :: xs => x :: dedupFirstOccurrence (xs.filter (fun y => y ≠ x))
termination_by l => l.length
decreasing_by
  simp only [List.length_cons]
  exact Nat.lt_succ_of_le (List.length_filter_le _ _)

/-- The config at `config.py` line 89: defaults plus the `restore_path`
placeholder (unset). -/
def initial_config : Config :=
  { get_default_config with restore_path := none }

/-- The config after the optional preset overlay (`config.py` lines 90-92).
`apply_presets` stands for the external `presets.apply_presets`
collaborator. -/
def presetApplied (apply_presets : Config → List String → Config)
    (preset : String) : Config :=
  if preset ≠ "" then apply_presets initial_config (uniquePresets preset)
  else initial_config

/-- `effective_batch_size` (`config.py` lines 98-101): the training batch
size, times `3.5` (exactly `7/2` as a binary float) when
`dataset_config.do_bucket_by_size` is set. -/
def effectiveBatchSize (config : Config) : ℚ :=
  let b : ℚ := ((config.experiment_kwargs.config.training.batch_size : Int) : ℚ)
  if config.experiment_kwargs.config.dataset_config.do_bucket_by_size then
    ratMul b (Rat.divInt 7 2)
  else b

/-- `steps_per_epoch` (`config.py` lines 102-104):
`int(num_train_samples / effective_batch_size / 8)`. -/
def stepsPerEpochFor (config : Config) (ds : Dataset) : Int :=
  pyInt (ratDiv (ratDiv ((ds.num_train_samples : Int) : ℚ)
    (effectiveBatchSize config)) 8)

/-- The derived-field updates of `get_config` (`config.py` lines 94-115) after
a successful dataset lookup: store the dataset record, recompute
`training_steps`, warmup/decay steps, and scale the learning-rate bounds by
the training batch size. -/
def derivedConfig (config0 : Config) (ds : Dataset) : Config :=
  let config := { config0 with experiment_kwargs.config.dataset := some ds }
  let steps_per_epoch := stepsPerEpochFor config ds
  let config := { config with training_steps := config.epochs * steps_per_epoch }
  let lr := config.experiment_kwargs.config.optimizer.lr_schedule
  let batch_size := config.experiment_kwargs.config.training.batch_size
  let lr :=
    { lr with
      warmup_steps := config.warmup_epochs * steps_per_epoch
      decay_steps := config.training_steps
      init_value := ratMul lr.init_value ((batch_size : Int) : ℚ)
      peak_value := ratMul lr.peak_value ((batch_size : Int) : ℚ)
      end_value := ratMul lr.end_value ((batch_size : Int) : ℚ) }
  { config with experiment_kwargs.config.optimizer.lr_schedule := lr }

/-- The fallible tail of `get_config`: dataset lookup (a failed lookup is
Python's `KeyError`), the division by `effective_batch_size` (zero raises
`ZeroDivisionError` in Python), and the derived-field updates. -/
def resolveAndDerive (config : Config) : Except String Config :=
  match datasets.lookup config.experiment_kwargs.config.dataset_name with
  | none => .error ("KeyError: " ++ config.experiment_kwargs.config.dataset_name)
  | some ds =>
    if effectiveBatchSize config = 0 then
      .error "ZeroDivisionError: division by zero"
    else
      .ok (derivedConfig config ds)

/-- `get_config(preset)` of `config.py`, with the external
`presets.apply_presets` collaborator passed in as a function parameter. -/
def get_config (apply_presets : Config → List String → Config)
    (preset : String) : Except String Config :=
  resolveAndDerive (presetApplied apply_presets preset)

/-- Whether a builder run returned a config (no exception). -/
def isOk : Except String Config → Bool
  | .ok _ => true
  | .error _ => false

/-- An overlay that applies no preset changes (used to exercise default
runs). -/
def idOverlay : Config → List String → Config := fun c _ => c

/-- The config returned by the default run `get_config('')`. -/
def defaultRunConfig : Config :=
  match get_config idOverlay "" with
  | .ok c => c
  | .error _ => get_default_config

/-- An overlay (standing for a preset) that sets the training batch size to
zero. -/
def zeroBatchOverlay : Config → List String → Config :=
  fun c _ => { c with experiment_kwargs.config.training.batch_size := 0 }

/-- An overlay (standing for a preset) that switches to an unregistered
dataset name. -/
def unknownNameOverlay : Config → List String → Config :=
  fun c _ => { c with experiment_kwargs.config.dataset_name := "unknown" }

/-- An overlay (standing for a preset) that only sets the bucketing flag. -/
def bucketOverlay : Config → List String → Config :=
  fun c _ =>
    { c with experiment_kwargs.config.dataset_config.do_bucket_by_size := true }

/-- Set the bucketing flag of a config (what distinguishes the two compared
runs of claim C6). -/
def withBucketing (c : Config) : Config :=
  { c with experiment_kwargs.config.dataset_config.do_bucket_by_size := true }

example : get_config idOverlay "" = .ok defaultRunConfig := rfl
example : defaultRunConfig.training_steps = 33984 := by decide
example : splitComma "a,a,b" = ["a", "a", "b"] := by decide
example : uniquePresets "a,a,b" = ["a", "b"] := by decide
example : splitComma "a," = ["a", ""] := by decide

theorem ratMul_eq (a b : ℚ) : ratMul a b = a * b := by
  rw [ratMul, Rat.divInt_eq_div]
  push_cast
  rw [← div_mul_div_comm, Rat.num_div_den, Rat.num_div_den]

theorem ratDiv_eq (a b : ℚ) : ratDiv a b = a / b := by
  have hinv : b⁻¹ = ((b.den : ℚ)) / (b.num : ℚ) := by
    have h := Rat.inv_def b
    rw [Rat.divInt_eq_div] at h
    push_cast at h
    exact h
  rw [ratDiv, Rat.divInt_eq_div]
  push_cast
  rw [← div_mul_div_comm, Rat.num_div_den, div_eq_mul_inv a b, hinv]

theorem pyInt_eq_floor_of_nonneg (q : ℚ) (hq : 0 ≤ q) : pyInt q = ⌊q⌋ := by
  have hnum : 0 ≤ q.num := Rat.num_nonneg.mpr hq
  rw [pyInt, if_pos hnum, Rat.floor_def]
  nth_rewrite 2 [← Int.toNat_of_nonneg hnum]
  exact Int.ofNat_ediv _ _

theorem pyInt_mono_of_nonneg {a b : ℚ} (ha : 0 ≤ a) (hab : a ≤ b) :
    pyInt a ≤ pyInt b := by
  rw [pyInt_eq_floor_of_nonneg a ha, pyInt_eq_floor_of_nonneg b (ha.trans hab)]
  exact Int.floor_le_floor hab

theorem datasets_lookup_elim {k : String} {d : Dataset}
    (h : datasets.lookup k = some d) :
    (k = "ogbg-code2" ∧ d = OGBG_CODE2) ∨
    (k = "ogbg-code2-norev" ∧ d = OGBG_CODE2_NOREV) ∨
    (k = "ogbg-code2-norev-df" ∧ d = OGBG_CODE2_NOREV_DF) ∨
    (k = "sn-7to11-12-13to16" ∧ d = SORTING_NETWORKS) := by
  by_cases h1 : k = "ogbg-code2"
  · subst h1
    rw [show datasets.lookup "ogbg-code2" = some OGBG_CODE2 from rfl] at h
    exact Or.inl ⟨rfl, (Option.some.inj h).symm⟩
  by_cases h2 : k = "ogbg-code2-norev"
  · subst h2
    rw [show datasets.lookup "ogbg-code2-norev" = some OGBG_CODE2_NOREV from
      rfl] at h
    exact Or.inr (Or.inl ⟨rfl, (Option.some.inj h).symm⟩)
  by_cases h3 : k = "ogbg-code2-norev-df"
  · subst h3
    rw [show datasets.lookup "ogbg-code2-norev-df" =
      some OGBG_CODE2_NOREV_DF from rfl] at h
    exact Or.inr (Or.inr (Or.inl ⟨rfl, (Option.some.inj h).symm⟩))
  by_cases h4 : k = "sn-7to11-12-13to16"
  · subst h4
    rw [show datasets.lookup "sn-7to11-12-13to16" =
      some SORTING_NETWORKS from rfl] at h
    exact Or.inr (Or.inr (Or.inr ⟨rfl, (Option.some.inj h).symm⟩))
  · exfalso
    simp only [datasets, List.lookup_cons, beq_false_of_ne h1,
      beq_false_of_ne h2, beq_false_of_ne h3, beq_false_of_ne h4,
      List.lookup_nil] at h
    exact Option.noConfusion h

/-- C1: a call to the config builder with no presets and the default dataset
name `ogbg-code2` (default batch size 48, bucketing unset, epochs 32) returns
a config whose `training_steps` equals
`epochs * floor(407976 / 48 / 8)` — the floor of the training-sample count
divided by the effective batch size and by the fixed replica count 8. -/
theorem claim_C1 (apply_presets : Config → List String → Config) :
    (get_config apply_presets "").map (fun c => c.training_steps) =
      .ok (32 * ⌊(407976 : ℚ) / 48 / 8⌋) := by
  have hrun : get_config apply_presets "" = .ok defaultRunConfig := rfl
  have hfl : ⌊(407976 : ℚ) / 48 / 8⌋ = 1062 := by norm_num
  have hts : defaultRunConfig.training_steps = 33984 := by decide
  rw [hrun]
  show Except.ok defaultRunConfig.training_steps =
    Except.ok (32 * ⌊(407976 : ℚ) / 48 / 8⌋)
  rw [hfl, hts]
  norm_num

/-- C3 counterexample: the sorting-network registry entry is keyed
`"sn-7to11-12-13to16"` but its record's `name` field is `"sn"`, so "looking a
key up returns a record whose name equals that key" fails at that key. -/
theorem claim_C3_counterexample :
    datasets.lookup "sn-7to11-12-13to16" = some SORTING_NETWORKS ∧
      SORTING_NETWORKS.name ≠ "sn-7to11-12-13to16" :=
  ⟨rfl, by decide⟩

/-- C3 amended: for the three OGB keys of the registry, lookup returns a
record whose `name` field equals the key; for the sorting-network key
`"sn-7to11-12-13to16"`, lookup returns the record named `"sn"`. -/
theorem claim_C3 (k : String) (d : Dataset) (h : datasets.lookup k = some d) :
    (k ≠ "sn-7to11-12-13to16" → d.name = k) ∧
      (k = "sn-7to11-12-13to16" → d.name = "sn") := by
  rcases datasets_lookup_elim h with ⟨hk, hd⟩ | ⟨hk, hd⟩ | ⟨hk, hd⟩ | ⟨hk, hd⟩ <;>
    subst hk <;> subst hd
  · exact ⟨fun _ => rfl, fun hc => absurd hc (by decide)⟩
  · exact ⟨fun _ => rfl, fun hc => absurd hc (by decide)⟩
  · exact ⟨fun _ => rfl, fun hc => absurd hc (by decide)⟩
  · exact ⟨fun hne => absurd rfl hne, fun _ => rfl⟩

theorem claim_C3_witness :
    (("ogbg-code2" : String) ≠ "sn-7to11-12-13to16" →
        OGBG_CODE2.name = "ogbg-code2") ∧
      (("ogbg-code2" : String) = "sn-7to11-12-13to16" →
        OGBG_CODE2.name = "sn") :=
  claim_C3 "ogbg-code2" OGBG_CODE2 rfl

/-- C4: for every registry entry, the optional edge-type-count fields
`edge_df_types` and `edge_ast_types` are either both present or both absent,
and they are present exactly for the data-flow-centric key
`"ogbg-code2-norev-df"`. -/
theorem claim_C4 (k : String) (d : Dataset) (h : datasets.lookup k = some d) :
    (d.edge_df_types.isSome = d.edge_ast_types.isSome) ∧
      (d.edge_df_types.isSome = true ↔ k = "ogbg-code2-norev-df") := by
  rcases datasets_lookup_elim h with ⟨hk, hd⟩ | ⟨hk, hd⟩ | ⟨hk, hd⟩ | ⟨hk, hd⟩ <;>
    subst hk <;> subst hd <;> refine ⟨by decide, ?_⟩ <;> simp_all <;> decide

theorem claim_C4_witness :
    (OGBG_CODE2_NOREV_DF.edge_df_types.isSome =
        OGBG_CODE2_NOREV_DF.edge_ast_types.isSome) ∧
      (OGBG_CODE2_NOREV_DF.edge_df_types.isSome = true ↔
        ("ogbg-code2-norev-df" : String) = "ogbg-code2-norev-df") :=
  claim_C4 "ogbg-code2-norev-df" OGBG_CODE2_NOREV_DF rfl

/-- C9: with an empty preset string the key-not-found branch is unreachable:
the default `dataset_name` `"ogbg-code2"` is a registry key, and the build
returns a config without raising, whatever the external preset overlay
does. -/
theorem claim_C9 (apply_presets : Config → List String → Config) :
    datasets.lookup
        (presetApplied apply_presets "").experiment_kwargs.config.dataset_name =
      some OGBG_CODE2 ∧
    isOk (get_config apply_presets "") = true :=
  ⟨rfl, rfl⟩

theorem resolveAndDerive_none {m : Config}
    (h : datasets.lookup m.experiment_kwargs.config.dataset_name = none) :
    resolveAndDerive m =
      .error ("KeyError: " ++ m.experiment_kwargs.config.dataset_name) := by
  unfold resolveAndDerive
  rw [h]

theorem resolveAndDerive_zero {m : Config} {ds : Dataset}
    (h : datasets.lookup m.experiment_kwargs.config.dataset_name = some ds)
    (hz : effectiveBatchSize m = 0) :
    resolveAndDerive m = .error "ZeroDivisionError: division by zero" := by
  unfold resolveAndDerive
  rw [h]
  exact if_pos hz

theorem resolveAndDerive_ok {m : Config} {ds : Dataset}
    (h : datasets.lookup m.experiment_kwargs.config.dataset_name = some ds)
    (hz : effectiveBatchSize m ≠ 0) :
    resolveAndDerive m = .ok (derivedConfig m ds) := by
  unfold resolveAndDerive
  rw [h]
  exact if_neg hz

theorem resolveAndDerive_eq_ok {m c' : Config}
    (h : resolveAndDerive m = .ok c') :
    ∃ ds, datasets.lookup m.experiment_kwargs.config.dataset_name = some ds ∧
      effectiveBatchSize m ≠ 0 ∧ c' = derivedConfig m ds := by
  cases hl : datasets.lookup m.experiment_kwargs.config.dataset_name with
  | none =>
    rw [resolveAndDerive_none hl] at h
    exact absurd h (by simp)
  | some ds =>
    by_cases hz : effectiveBatchSize m = 0
    · rw [resolveAndDerive_zero hl hz] at h
      exact absurd h (by simp)
    · rw [resolveAndDerive_ok hl hz] at h
      exact ⟨ds, rfl, hz, (Except.ok.inj h).symm⟩

/-- C2 counterexample: an overlay (standing for a preset) that sets the
training batch size to zero makes the builder hit the division
`num_train_samples / effective_batch_size` with a zero divisor, so a run
whose `dataset_name` is a registry key still fails — with a zero-division
error, not a key-not-found error. -/
theorem claim_C2_counterexample :
    datasets.lookup
        (presetApplied zeroBatchOverlay
          "p").experiment_kwargs.config.dataset_name = some OGBG_CODE2 ∧
      get_config zeroBatchOverlay "p" =
        .error "ZeroDivisionError: division by zero" :=
  ⟨rfl, rfl⟩

/-- C2 amended: the builder fails with the key-not-found error exactly when
the post-preset `dataset_name` is not a registry key; when it is a key, the
run returns a config unless the post-preset effective batch size is zero, in
which case the division `num_train_samples / effective_batch_size` fails
with a zero-division error (the only other possible error). -/
theorem claim_C2 (apply_presets : Config → List String → Config) (s : String) :
    (datasets.lookup
        (presetApplied apply_presets s).experiment_kwargs.config.dataset_name =
          none →
      get_config apply_presets s =
        .error ("KeyError: " ++
          (presetApplied apply_presets s).experiment_kwargs.config.dataset_name)) ∧
    (∀ ds, datasets.lookup
        (presetApplied apply_presets s).experiment_kwargs.config.dataset_name =
          some ds →
      (effectiveBatchSize (presetApplied apply_presets s) = 0 →
        get_config apply_presets s =
          .error "ZeroDivisionError: division by zero") ∧
      (effectiveBatchSize (presetApplied apply_presets s) ≠ 0 →
        isOk (get_config apply_presets s) = true)) := by
  refine ⟨fun hnone => resolveAndDerive_none hnone,
    fun ds hsome => ⟨fun hz => resolveAndDerive_zero hsome hz, fun hz => ?_⟩⟩
  show isOk (resolveAndDerive (presetApplied apply_presets s)) = true
  rw [resolveAndDerive_ok hsome hz]
  rfl

theorem claim_C2_witness :
    get_config unknownNameOverlay "p" =
      .error ("KeyError: " ++
        (presetApplied unknownNameOverlay
          "p").experiment_kwargs.config.dataset_name) :=
  (claim_C2 unknownNameOverlay "p").1 rfl

/-- The default peak learning rate of the schedule, `1e-4 / 32`, written with
ordinary rational division. -/
theorem initial_peak_value :
    (presetApplied idOverlay
        "").experiment_kwargs.config.optimizer.lr_schedule.peak_value =
      1 / 10000 / 32 := by
  show ratDiv (Rat.divInt 1 10000) 32 = 1 / 10000 / 32
  rw [ratDiv_eq, Rat.divInt_eq_div]
  norm_num

/-- C5: every successful builder run multiplies each of the schedule's
`init_value`, `peak_value` and `end_value` by the (post-preset) training
batch size `B` — not by the bucketing-scaled effective batch size — so in
particular a run whose pre-scaling peak value is the default `1e-4 / 32`
returns peak value `(1e-4 / 32) * B`. -/
theorem claim_C5 (apply_presets : Config → List String → Config) (s : String)
    (c' : Config) (h : get_config apply_presets s = .ok c') :
    c'.experiment_kwargs.config.optimizer.lr_schedule.init_value =
      (presetApplied apply_presets
          s).experiment_kwargs.config.optimizer.lr_schedule.init_value *
        ((presetApplied apply_presets
          s).experiment_kwargs.config.training.batch_size : ℚ) ∧
    c'.experiment_kwargs.config.optimizer.lr_schedule.peak_value =
      (presetApplied apply_presets
          s).experiment_kwargs.config.optimizer.lr_schedule.peak_value *
        ((presetApplied apply_presets
          s).experiment_kwargs.config.training.batch_size : ℚ) ∧
    c'.experiment_kwargs.config.optimizer.lr_schedule.end_value =
      (presetApplied apply_presets
          s).experiment_kwargs.config.optimizer.lr_schedule.end_value *
        ((presetApplied apply_presets
          s).experiment_kwargs.config.training.batch_size : ℚ) ∧
    ((presetApplied apply_presets
          s).experiment_kwargs.config.optimizer.lr_schedule.peak_value =
        1 / 10000 / 32 →
      c'.experiment_kwargs.config.optimizer.lr_schedule.peak_value =
        (1 / 10000 / 32 : ℚ) *
          ((presetApplied apply_presets
            s).experiment_kwargs.config.training.batch_size : ℚ)) := by
  obtain ⟨ds, hl, hz, rfl⟩ := resolveAndDerive_eq_ok h
  refine ⟨ratMul_eq _ _, ratMul_eq _ _, ratMul_eq _ _, fun hpk => ?_⟩
  rw [← hpk]
  exact ratMul_eq _ _

theorem claim_C5_witness :
    defaultRunConfig.experiment_kwargs.config.optimizer.lr_schedule.peak_value =
      (1 / 10000 / 32 : ℚ) *
        ((presetApplied idOverlay
          "").experiment_kwargs.config.training.batch_size : ℚ) :=
  (claim_C5 idOverlay "" defaultRunConfig rfl).2.2.2 initial_peak_value

/-- C8: every successful builder run satisfies
`training_steps = epochs * steps_per_epoch`,
`lr_schedule.warmup_steps = warmup_epochs * steps_per_epoch` and
`lr_schedule.decay_steps = training_steps`, computed from the post-preset,
post-dataset-resolution `steps_per_epoch`. -/
theorem claim_C8 (apply_presets : Config → List String → Config) (s : String)
    (c' : Config) (ds : Dataset) (h : get_config apply_presets s = .ok c')
    (hds : c'.experiment_kwargs.config.dataset = some ds) :
    c'.training_steps = c'.epochs * stepsPerEpochFor c' ds ∧
    c'.experiment_kwargs.config.optimizer.lr_schedule.warmup_steps =
      c'.warmup_epochs * stepsPerEpochFor c' ds ∧
    c'.experiment_kwargs.config.optimizer.lr_schedule.decay_steps =
      c'.training_steps := by
  obtain ⟨ds0, hl, hz, rfl⟩ := resolveAndDerive_eq_ok h
  have hds0 : ds0 = ds := Option.some.inj hds
  subst hds0
  exact ⟨rfl, rfl, rfl⟩

theorem claim_C8_witness :
    defaultRunConfig.training_steps =
      defaultRunConfig.epochs * stepsPerEpochFor defaultRunConfig OGBG_CODE2 ∧
    defaultRunConfig.experiment_kwargs.config.optimizer.lr_schedule.warmup_steps =
      defaultRunConfig.warmup_epochs *
        stepsPerEpochFor defaultRunConfig OGBG_CODE2 ∧
    defaultRunConfig.experiment_kwargs.config.optimizer.lr_schedule.decay_steps =
      defaultRunConfig.training_steps :=
  claim_C8 idOverlay "" defaultRunConfig OGBG_CODE2 rfl rfl

/-- C10: a build with an empty preset string changes only `restore_path`, the
`dataset` field, `training_steps` and the lr-schedule fields; every other
field of the returned config — epochs, warmup epochs, logging and checkpoint
settings, experiment kwargs scalars, optimizer identity and kwargs, model,
dataset-config, training and evaluation sub-records — keeps its
default-configuration value. -/
theorem claim_C10 (apply_presets : Config → List String → Config)
    (c' : Config) (h : get_config apply_presets "" = .ok c') :
    c'.warmup_epochs = get_default_config.warmup_epochs ∧
    c'.epochs = get_default_config.epochs ∧
    c'.log_train_data_interval = get_default_config.log_train_data_interval ∧
    c'.log_tensors_interval = get_default_config.log_tensors_interval ∧
    c'.save_checkpoint_interval = get_default_config.save_checkpoint_interval ∧
    c'.save_initial_train_checkpoint =
      get_default_config.save_initial_train_checkpoint ∧
    c'.checkpoint_dir = get_default_config.checkpoint_dir ∧
    c'.eval_specific_checkpoint_dir =
      get_default_config.eval_specific_checkpoint_dir ∧
    c'.best_model_eval_metric = get_default_config.best_model_eval_metric ∧
    c'.best_model_eval_metric_higher_is_better =
      get_default_config.best_model_eval_metric_higher_is_better ∧
    c'.experiment_kwargs.config.data_root =
      get_default_config.experiment_kwargs.config.data_root ∧
    c'.experiment_kwargs.config.debug =
      get_default_config.experiment_kwargs.config.debug ∧
    c'.experiment_kwargs.config.dataset_name =
      get_default_config.experiment_kwargs.config.dataset_name ∧
    c'.experiment_kwargs.config.pmap_axis =
      get_default_config.experiment_kwargs.config.pmap_axis ∧
    c'.experiment_kwargs.config.optimizer.name =
      get_default_config.experiment_kwargs.config.optimizer.name ∧
    c'.experiment_kwargs.config.optimizer.optimizer_kwargs =
      get_default_config.experiment_kwargs.config.optimizer.optimizer_kwargs ∧
    c'.experiment_kwargs.config.optimizer.use_agc =
      get_default_config.experiment_kwargs.config.optimizer.use_agc ∧
    c'.experiment_kwargs.config.optimizer.agc_kwargs =
      get_default_config.experiment_kwargs.config.optimizer.agc_kwargs ∧
    c'.experiment_kwargs.config.model =
      get_default_config.experiment_kwargs.config.model ∧
    c'.experiment_kwargs.config.dataset_config =
      get_default_config.experiment_kwargs.config.dataset_config ∧
    c'.experiment_kwargs.config.training =
      get_default_config.experiment_kwargs.config.training ∧
    c'.experiment_kwargs.config.evaluation =
      get_default_config.experiment_kwargs.config.evaluation := by
  have he : get_config apply_presets "" = .ok defaultRunConfig := rfl
  rw [he] at h
  have hc : c' = defaultRunConfig := (Except.ok.inj h).symm
  subst hc
  exact ⟨rfl, rfl, rfl, rfl, rfl, rfl, rfl, rfl, rfl, rfl, rfl, rfl, rfl, rfl,
    rfl, rfl, rfl, rfl, rfl, rfl, rfl, rfl⟩

theorem claim_C10_witness :
    defaultRunConfig.warmup_epochs = get_default_config.warmup_epochs ∧
    defaultRunConfig.epochs = get_default_config.epochs ∧
    defaultRunConfig.log_train_data_interval =
      get_default_config.log_train_data_interval ∧
    defaultRunConfig.log_tensors_interval =
      get_default_config.log_tensors_interval ∧
    defaultRunConfig.save_checkpoint_interval =
      get_default_config.save_checkpoint_interval ∧
    defaultRunConfig.save_initial_train_checkpoint =
      get_default_config.save_initial_train_checkpoint ∧
    defaultRunConfig.checkpoint_dir = get_default_config.checkpoint_dir ∧
    defaultRunConfig.eval_specific_checkpoint_dir =
      get_default_config.eval_specific_checkpoint_dir ∧
    defaultRunConfig.best_model_eval_metric =
      get_default_config.best_model_eval_metric ∧
    defaultRunConfig.best_model_eval_metric_higher_is_better =
      get_default_config.best_model_eval_metric_higher_is_better ∧
    defaultRunConfig.experiment_kwargs.config.data_root =
      get_default_config.experiment_kwargs.config.data_root ∧
    defaultRunConfig.experiment_kwargs.config.debug =
      get_default_config.experiment_kwargs.config.debug ∧
    defaultRunConfig.experiment_kwargs.config.dataset_name =
      get_default_config.experiment_kwargs.config.dataset_name ∧
    defaultRunConfig.experiment_kwargs.config.pmap_axis =
      get_default_config.experiment_kwargs.config.pmap_axis ∧
    defaultRunConfig.experiment_kwargs.config.optimizer.name =
      get_default_config.experiment_kwargs.config.optimizer.name ∧
    defaultRunConfig.experiment_kwargs.config.optimizer.optimizer_kwargs =
      get_default_config.experiment_kwargs.config.optimizer.optimizer_kwargs ∧
    defaultRunConfig.experiment_kwargs.config.optimizer.use_agc =
      get_default_config.experiment_kwargs.config.optimizer.use_agc ∧
    defaultRunConfig.experiment_kwargs.config.optimizer.agc_kwargs =
      get_default_config.experiment_kwargs.config.optimizer.agc_kwargs ∧
    defaultRunConfig.experiment_kwargs.config.model =
      get_default_config.experiment_kwargs.config.model ∧
    defaultRunConfig.experiment_kwargs.config.dataset_config =
      get_default_config.experiment_kwargs.config.dataset_config ∧
    defaultRunConfig.experiment_kwargs.config.training =
      get_default_config.experiment_kwargs.config.training ∧
    defaultRunConfig.experiment_kwargs.config.evaluation =
      get_default_config.experiment_kwargs.config.evaluation :=
  claim_C10 idOverlay defaultRunConfig rfl

/-- C6 counterexample: two runs identical except for the bucketing flag
(batch size 48 in both).  The flagged run does use
`effective_batch_size = 3.5 * 48 = 168`, but its `steps_per_epoch` is `303`
versus `1062` for the unflagged run, and `1062 ≠ 3.5 * 303`: the truncating
division makes the reduction of `steps_per_epoch` only approximately, not
exactly, proportional. -/
theorem claim_C6_counterexample :
    (presetApplied bucketOverlay
        "p").experiment_kwargs.config.dataset_config.do_bucket_by_size =
      true ∧
    (presetApplied idOverlay
        "p").experiment_kwargs.config.dataset_config.do_bucket_by_size =
      false ∧
    (presetApplied bucketOverlay
        "p").experiment_kwargs.config.training.batch_size = 48 ∧
    (presetApplied idOverlay
        "p").experiment_kwargs.config.training.batch_size = 48 ∧
    effectiveBatchSize (presetApplied bucketOverlay "p") = (7 / 2) * 48 ∧
    effectiveBatchSize (presetApplied idOverlay "p") = 48 ∧
    stepsPerEpochFor (presetApplied bucketOverlay "p") OGBG_CODE2 = 303 ∧
    stepsPerEpochFor (presetApplied idOverlay "p") OGBG_CODE2 = 1062 ∧
    ¬ ((1062 : ℚ) = (7 / 2) * 303) := by
  refine ⟨rfl, rfl, rfl, rfl, ?_, ?_, by decide, by decide, by norm_num⟩
  · have h : effectiveBatchSize (presetApplied bucketOverlay "p") = 168 := by
      decide
    rw [h]
    norm_num
  · have h : effectiveBatchSize (presetApplied idOverlay "p") = 48 := by decide
    rw [h]

/-- C6 amended: flipping only the bucketing flag multiplies the effective
batch size by exactly `3.5` (versus `1` when unset) and weakly decreases
`steps_per_epoch` — the reduction is by the factor `3.5` only up to the
truncation `int(...)`, i.e. the flagged run computes the floor of a quotient
`3.5` times smaller, which need not equal the unflagged result divided by
`3.5`. -/
theorem claim_C6 (c : Config) (ds : Dataset)
    (hflag :
      c.experiment_kwargs.config.dataset_config.do_bucket_by_size = false)
    (hb : 0 < c.experiment_kwargs.config.training.batch_size)
    (hn : 0 ≤ ds.num_train_samples) :
    effectiveBatchSize (withBucketing c) = (7 / 2) * effectiveBatchSize c ∧
    stepsPerEpochFor (withBucketing c) ds ≤ stepsPerEpochFor c ds := by
  have hBpos : (0 : ℚ) < (c.experiment_kwargs.config.training.batch_size : ℚ) := by
    exact_mod_cast hb
  have hNpos : (0 : ℚ) ≤ ((ds.num_train_samples : Int) : ℚ) := by
    exact_mod_cast hn
  have heffc :
      effectiveBatchSize c =
        (c.experiment_kwargs.config.training.batch_size : ℚ) := by
    unfold effectiveBatchSize
    rw [hflag]
    simp
  have heffb :
      effectiveBatchSize (withBucketing c) =
        (7 / 2) * (c.experiment_kwargs.config.training.batch_size : ℚ) := by
    show ratMul (c.experiment_kwargs.config.training.batch_size : ℚ)
      (Rat.divInt 7 2) = _
    rw [ratMul_eq, Rat.divInt_eq_div]
    push_cast
    ring
  constructor
  · rw [heffb, heffc]
  · unfold stepsPerEpochFor
    simp only [ratDiv_eq]
    rw [heffb, heffc]
    have hBig : (0 : ℚ) <
        7 / 2 * (c.experiment_kwargs.config.training.batch_size : ℚ) := by
      positivity
    apply pyInt_mono_of_nonneg
    · apply div_nonneg _ (by norm_num : (0:ℚ) ≤ 8)
      exact div_nonneg hNpos hBig.le
    · gcongr
      linarith

theorem claim_C6_witness :
    effectiveBatchSize (withBucketing initial_config) =
      (7 / 2) * effectiveBatchSize initial_config ∧
    stepsPerEpochFor (withBucketing initial_config) OGBG_CODE2 ≤
      stepsPerEpochFor initial_config OGBG_CODE2 :=
  claim_C6 initial_config OGBG_CODE2 rfl (by decide) (by decide)

theorem foldl_insert_eq (l : List String) : ∀ (acc : List String),
    l.foldl (fun a x => if x ∈ a then a else a ++ [x]) acc =
      acc ++ dedupFirstOccurrence (l.filter (fun y => y ∉ acc)) := by
  induction l with
  | nil => intro acc; simp [dedupFirstOccurrence]
  | cons x xs ih =>
    intro acc
    rw [List.foldl_cons, List.filter_cons]
    by_cases hx : x ∈ acc
    · rw [if_pos hx]
      simp only [hx, not_true_eq_false, decide_False, Bool.false_eq_true,
        if_false]
      exact ih acc
    · rw [if_neg hx]
      simp only [hx, not_false_eq_true, decide_True, if_true]
      rw [ih (acc ++ [x])]
      simp only [dedupFirstOccurrence]
      have hfilt : xs.filter (fun y => decide (y ∉ acc ++ [x])) =
          (xs.filter (fun y => decide (y ∉ acc))).filter
            (fun y => decide (y ≠ x)) := by
        rw [List.filter_filter]
        apply List.filter_congr
        intro y _
        by_cases h1 : y = x <;> by_cases h2 : y ∈ acc <;>
          simp [h1, h2]
      rw [hfilt, List.append_cons, List.append_assoc]
      simp

theorem orderedDictFromKeys_eq (l : List String) :
    orderedDictFromKeys l = dedupFirstOccurrence l := by
  rw [orderedDictFromKeys, foldl_insert_eq l []]
  have hf : l.filter (fun y => decide (y ∉ ([] : List String))) = l :=
    List.filter_eq_self.mpr (fun a _ => by simp)
  rw [hf, List.nil_append]

theorem mem_dedupFirstOccurrence {l : List String} {a : String}
    (h : a ∈ dedupFirstOccurrence l) : a ∈ l := by
  induction l using dedupFirstOccurrence.induct with
  | case1 => simp [dedupFirstOccurrence] at h
  | case2 x xs ih =>
    simp only [dedupFirstOccurrence] at h
    rcases List.mem_cons.mp h with h1 | h1
    · exact h1 ▸ List.mem_cons_self _ _
    · exact List.mem_cons_of_mem _ (List.mem_of_mem_filter (ih h1))

theorem nodup_dedupFirstOccurrence (l : List String) :
    (dedupFirstOccurrence l).Nodup := by
  induction l using dedupFirstOccurrence.induct with
  | case1 => simp [dedupFirstOccurrence]
  | case2 x xs ih =>
    simp only [dedupFirstOccurrence]
    refine List.Nodup.cons (fun hmem => ?_) ih
    have := List.of_mem_filter (mem_dedupFirstOccurrence hmem)
    simp at this

/-- C7: for every non-empty preset string the builder hands the external
overlay the comma-split preset names deduplicated by first occurrence with
order preserved (stated via `dedupFirstOccurrence`, the direct
first-occurrence recursion written from the spec's words); the list passed
never contains a name twice; and for the input `"a,a,b"` the list passed is
`["a", "b"]`, so preset `a` is applied exactly once and before `b`. -/
theorem claim_C7 :
    (∀ (apply_presets : Config → List String → Config) (s : String),
      s ≠ "" →
      get_config apply_presets s =
        resolveAndDerive (apply_presets initial_config
          (dedupFirstOccurrence (splitComma s)))) ∧
    (∀ s : String, (uniquePresets s).Nodup) ∧
    uniquePresets "a,a,b" = ["a", "b"] := by
  refine ⟨fun f s hs => ?_, fun s => ?_, by decide⟩
  · show resolveAndDerive (presetApplied f s) = _
    rw [presetApplied, if_pos hs]
    simp only [uniquePresets]
    rw [orderedDictFromKeys_eq]
  · simp only [uniquePresets]
    rw [orderedDictFromKeys_eq]
    exact nodup_dedupFirstOccurrence _

theorem claim_C7_witness :
    get_config idOverlay "a,a,b" =
      resolveAndDerive (idOverlay initial_config
        (dedupFirstOccurrence (splitComma "a,a,b"))) ∧
    uniquePresets "a,a,b" = ["a", "b"] :=
  ⟨claim_C7.1 idOverlay "a,a,b" (by decide), claim_C7.2.2⟩

end DigraphConfig
